import Mathlib

/-!
Shallow embedding of the credential-rotation and retry core of the Orbit
dashboard (src/dashboard.py): `configure_genai`, `resolve_model_name`,
`rotate_key` and `ask_orbit`, together with the session state they mutate
(`st.session_state.key_index`, `st.session_state.model_name`, the global
`model` handle).  Python string operations used by the source
(membership `in`, `str.lower`, `str.replace`) are modelled structurally on
`List Char` so that everything evaluates by `decide` / `rfl`.
-/

/-- Does `pat` occur at the front of `l`?  (helper for Python substring tests). -/
def matchFront : List Char → List Char → Bool
  | [], _ => true
  | _ :: _, [] => false
  | a :: as, b :: bs => a == b && matchFront as bs

/-- Does `needle` occur anywhere in `hay`?  (helper for Python `in`). -/
def subSearch (needle : List Char) : List Char → Bool
  | [] => needle.isEmpty
  | c :: cs => matchFront needle (c :: cs) || subSearch needle cs

/-- Python `needle in hay` on strings: substring containment. -/
def pyIn (needle hay : String) : Bool :=
  subSearch needle.data hay.data

/-- Python `str.lower()` (ASCII case folding suffices for the source's tests). -/
def pyLower (s : String) : String :=
  String.mk (s.data.map Char.toLower)

/-- Fuel-driven worker for `pyReplace`: replaces every non-overlapping
occurrence of `pat` by `rep`, scanning left to right. -/
def replaceAux (pat rep : List Char) : Nat → List Char → List Char
  | _, [] => []
  | 0, l => l
  | fuel + 1, c :: cs =>
    if matchFront pat (c :: cs) then
      rep ++ replaceAux pat rep fuel (List.drop (pat.length - 1) cs)
    else
      c :: replaceAux pat rep fuel cs

/-- Python `s.replace(pat, rep)` for a nonempty pattern (the only use in the
source is the nonempty pattern `"models/"` at dashboard.py lines 65/70/74). -/
def pyReplace (s pat rep : String) : String :=
  if pat.isEmpty then s else String.mk (replaceAux pat.data rep.data s.data.length s.data)

/-- One entry of the backend's model catalog, as consumed by
`resolve_model_name` (dashboard.py lines 59-60): a name together with its
supported generation methods. -/
structure MInfo where
  name : String
  supported_generation_methods : List String
  deriving Repr, DecidableEq

/-- The global `model` handle (dashboard.py line 86/101): a
`genai.GenerativeModel` bound to the model name, together with the credential
the global `genai` client was last configured with (`genai.configure`). -/
structure ModelHandle where
  api_key : Option String
  name : String
  deriving Repr, DecidableEq

/-- The session-scoped mutable state of the dispatcher:
`st.session_state.key_index` (line 42), `st.session_state.model_name`
(line 82) and the global `model` handle (line 86). -/
structure SessionState where
  key_index : Nat
  model_name : String
  model : ModelHandle
  deriving Repr, DecidableEq

/-- dashboard.py lines 45-53.  `configure_genai` selects the credential at
`key_index % len(GEMINI_API_KEYS)` and configures the client with it,
returning `True`; the only failure of the `try` body is the `%`/indexing on an
empty pool (ZeroDivisionError), caught and turned into `False`.  We return the
selected credential (`none` on failure). -/
def configure_genai (keys : List String) (key_index : Nat) : Option String :=
  if h : keys.length = 0 then none
  else some (keys.get ⟨key_index % keys.length, Nat.mod_lt _ (Nat.pos_of_ne_zero h)⟩)

/-- dashboard.py line 64: Priority 1 filter — a `gemini-1.5-flash` variant
that is neither a `latest` nor an `exp` model. -/
def priority1 (m : String) : Bool :=
  pyIn "gemini-1.5-flash" m && !pyIn "latest" m && !pyIn "exp" m

/-- dashboard.py line 69: Priority 2 filter — any `flash` variant excluding
`gemini-2` and `exp` models. -/
def priority2 (m : String) : Bool :=
  pyIn "flash" m && !pyIn "gemini-2" m && !pyIn "exp" m

/-- dashboard.py line 60: the names of the catalog models that support
`generateContent`. -/
def validModels (models : List MInfo) : List String :=
  (models.filter
    (fun m => m.supported_generation_methods.contains "generateContent")).map
    (fun m => m.name)

/-- dashboard.py lines 55-77.  The probe (`genai.list_models()`) is external:
`none` models the whole `try` body raising (probe failure), `some models` a
catalog successfully listed.  Selection then follows the source's priorities;
`replace("models/", "")` strips the catalog prefix from the returned name. -/
def resolve_model_name (probe : Option (List MInfo)) : String :=
  match probe with
  | none => "gemini-1.5-flash"
  | some models =>
    match (validModels models).find? priority1 with
    | some m => pyReplace m "models/" ""
    | none =>
      match (validModels models).find? priority2 with
      | some m => pyReplace m "models/" ""
      | none =>
        match validModels models with
        | m :: _ => pyReplace m "models/" ""
        | [] => "gemini-1.5-flash"

/-- dashboard.py lines 79-82: `st.session_state.model_name` is set by
`resolve_model_name` only when absent from the session state; a cached value
is kept as is (resolution runs at most once per session). -/
def initModelName (cached : Option String) (probe : Option (List MInfo)) : String :=
  match cached with
  | some n => n
  | none => resolve_model_name probe

/-- dashboard.py lines 88-104.  `rotate_key` fails (returning `False`,
touching nothing) when the pool has at most one entry; otherwise it advances
`key_index` to `(key_index + 1) % len(GEMINI_API_KEYS)`, reconfigures the
client with the new credential, rebuilds the global `model` handle with the
cached `model_name`, and returns `True`. -/
def rotate_key (keys : List String) (s : SessionState) : Bool × SessionState :=
  if keys.length ≤ 1 then
    (false, s)
  else
    let newIndex := (s.key_index + 1) % keys.length
    (true,
      { key_index := newIndex
        model_name := s.model_name
        model := { api_key := configure_genai keys newIndex, name := s.model_name } })

/-- dashboard.py line 116: quota-class error test on the exception text. -/
def is_quota (err_msg : String) : Bool :=
  pyIn "429" err_msg || pyIn "quota" (pyLower err_msg) || pyIn "ResourceExhausted" err_msg

/-- dashboard.py line 117: auth-class error test on the exception text. -/
def is_auth (err_msg : String) : Bool :=
  pyIn "403" err_msg || pyIn "leaked" (pyLower err_msg) || pyIn "API key" err_msg

/-- dashboard.py lines 111-136, the retry loop of `ask_orbit`.  The backend
call `model.generate_content(prompt)` is modelled as `gen : Nat → Except
String String`, the outcome of the call made on a given attempt number (the
most general deterministic schedule of successes and raised exceptions for
one dispatch; an exception is its message string).  `remaining` counts the
loop iterations left in `range(max_retries)` (so `attempt + remaining =
max_retries` at the call site); falling out of the loop is `remaining = 0`
(line 136).  Besides the Python result and the final session state, the
function returns a ghost trace: the value of `key_index` at each backend
call, recording how many attempts were made and with which cursor. -/
def askOrbitLoop (keys : List String) (gen : Nat → Except String String)
    (max_retries : Nat) : Nat → Nat → SessionState → Option String × SessionState × List Nat
  | 0, _, s => (none, s, [])
  | remaining + 1, attempt, s =>
    match gen attempt with
    | Except.ok r => (some r, s, [s.key_index])
    | Except.error err_msg =>
      if is_quota err_msg || is_auth err_msg then
        match rotate_key keys s with
        | (true, s1) =>
          let rest := askOrbitLoop keys gen max_retries remaining (attempt + 1) s1
          (rest.1, rest.2.1, s.key_index :: rest.2.2)
        | (false, s1) => (none, s1, [s.key_index])
      else
        if attempt < max_retries - 1 then
          let rest := askOrbitLoop keys gen max_retries remaining (attempt + 1) s
          (rest.1, rest.2.1, s.key_index :: rest.2.2)
        else (none, s, [s.key_index])

/-- dashboard.py lines 106-136: `ask_orbit` with budget
`max_retries = len(GEMINI_API_KEYS) + 1` (line 109). -/
def ask_orbit (keys : List String) (gen : Nat → Except String String)
    (s : SessionState) : Option String × SessionState × List Nat :=
  askOrbitLoop keys gen (keys.length + 1) (keys.length + 1) 0 s

/-- Iterated rotation: `rotate_key` applied `k` times to the session state
(spec section 8's "rotate() called N times"). -/
def rotateTimes (keys : List String) : Nat → SessionState → SessionState
  | 0, s => s
  | k + 1, s => rotateTimes keys k (rotate_key keys s).2

/-- A concrete session state used by the concrete instances below:
fresh session (line 42 sets `key_index = 0`) with the fallback model name. -/
def st0 : SessionState :=
  { key_index := 0
    model_name := "gemini-1.5-flash"
    model := { api_key := some "k1", name := "gemini-1.5-flash" } }

-- sanity checks on the string model and the dispatcher
example : pyIn "quota" (pyLower "Quota Exceeded") = true := by decide
example : is_quota "429 rate limit" = true := by decide
example : is_auth "500 server" = false := by decide
example : pyReplace "models/gemini-1.5-flash" "models/" "" = "gemini-1.5-flash" := by decide
example : (ask_orbit ["k1", "k2"] (fun _ => Except.ok "hi") st0) = (some "hi", st0, [0]) := by
  decide
example :
    (ask_orbit ["k1", "k2"] (fun _ => Except.error "429") st0).2.2 = [0, 1, 0] := by
  decide
example :
    (ask_orbit ["k1", "k2"] (fun _ => Except.error "500") st0).2.2 = [0, 0, 0] := by
  decide
example :
    (ask_orbit ["k1"] (fun _ => Except.error "429") st0) = (none, st0, [0]) := by
  decide

/-- C2: `rotate_key` advances the cursor to `(cursor + 1) mod length` and
signals success whenever the pool has at least two entries; with exactly one
entry it signals failure and leaves the whole session state unchanged, for
every starting cursor value. -/
theorem rotate_key_contract (keys : List String) (s : SessionState) :
    (2 ≤ keys.length →
      (rotate_key keys s).1 = true ∧
      (rotate_key keys s).2.key_index = (s.key_index + 1) % keys.length) ∧
    (keys.length = 1 →
      (rotate_key keys s).1 = false ∧ (rotate_key keys s).2 = s) := by
  constructor
  · intro h
    have hn : ¬ keys.length ≤ 1 := by omega
    simp [rotate_key, hn]
  · intro h
    have hn : keys.length ≤ 1 := by omega
    simp [rotate_key, hn]

/-- Witness for C2 at the two-key pool and a fresh session. -/
theorem rotate_key_contract_witness :
    (rotate_key ["a", "b"] st0).1 = true ∧ (rotate_key ["a", "b"] st0).2.key_index = 1 := by
  have h := (rotate_key_contract ["a", "b"] st0).1 (by decide)
  exact ⟨h.1, h.2.trans (by decide)⟩

/-- C10: for every cursor value and every non-empty pool, `configure_genai`
selects the credential at index `cursor mod length`, so the lookup is always
in bounds and selection never fails. -/
theorem configure_genai_in_bounds (keys : List String) (cursor : Nat) (h : keys ≠ []) :
    ∃ k, configure_genai keys cursor = some k ∧
      keys.get? (cursor % keys.length) = some k := by
  have hlen : keys.length ≠ 0 := by simpa using h
  refine ⟨keys.get ⟨cursor % keys.length, Nat.mod_lt _ (Nat.pos_of_ne_zero hlen)⟩, ?_, ?_⟩
  · simp [configure_genai, hlen]
  · simp [List.get?_eq_get (Nat.mod_lt _ (Nat.pos_of_ne_zero hlen))]

/-- Witness for C10 at an out-of-range cursor over a two-key pool. -/
theorem configure_genai_in_bounds_witness :
    ∃ k, configure_genai ["a", "b"] 5 = some k ∧
      ["a", "b"].get? (5 % (["a", "b"] : List String).length) = some k :=
  configure_genai_in_bounds ["a", "b"] 5 (by decide)

/-- C9: a successful rotation rebuilds the model handle bound to the new
credential while keeping the cached resolved model name, and model-name
resolution runs only when the session has no cached name (never re-run by
rotation). -/
theorem rotate_keeps_model_name (keys : List String) (s : SessionState)
    (h : 2 ≤ keys.length) :
    (rotate_key keys s).2.model_name = s.model_name ∧
    (rotate_key keys s).2.model.name = s.model_name ∧
    (rotate_key keys s).2.model.api_key =
      configure_genai keys ((s.key_index + 1) % keys.length) ∧
    (∀ n probe, initModelName (some n) probe = n) ∧
    (∀ probe, initModelName none probe = resolve_model_name probe) := by
  have hn : ¬ keys.length ≤ 1 := by omega
  refine ⟨?_, ?_, ?_, fun n probe => rfl, fun probe => rfl⟩ <;> simp [rotate_key, hn]

/-- Witness for C9 at the two-key pool and a fresh session. -/
theorem rotate_keeps_model_name_witness :
    (rotate_key ["a", "b"] st0).2.model_name = st0.model_name :=
  (rotate_keeps_model_name ["a", "b"] st0 (by decide)).1

/-- C5: `resolve_model_name` selects by priority — (1) the first
`gemini-1.5-flash` variant with neither `latest` nor `exp`, (2) the first
`flash` variant excluding `gemini-2` and `exp`, (3) the first capable model,
(4) the hardcoded fallback `"gemini-1.5-flash"` when the probe fails or
yields nothing; in particular a catalog holding `models/gemini-1.5-flash`
and `models/gemini-1.5-flash-latest` (either order) yields
`"gemini-1.5-flash"`. -/
theorem resolve_model_name_priority :
    resolve_model_name (some
        [⟨"models/gemini-1.5-flash", ["generateContent"]⟩,
         ⟨"models/gemini-1.5-flash-latest", ["generateContent"]⟩]) = "gemini-1.5-flash" ∧
    resolve_model_name (some
        [⟨"models/gemini-1.5-flash-latest", ["generateContent"]⟩,
         ⟨"models/gemini-1.5-flash", ["generateContent"]⟩]) = "gemini-1.5-flash" ∧
    (∀ models m, (validModels models).find? priority1 = some m →
      resolve_model_name (some models) = pyReplace m "models/" "") ∧
    (∀ models m, (validModels models).find? priority1 = none →
      (validModels models).find? priority2 = some m →
      resolve_model_name (some models) = pyReplace m "models/" "") ∧
    (∀ models m l, (validModels models).find? priority1 = none →
      (validModels models).find? priority2 = none →
      validModels models = m :: l →
      resolve_model_name (some models) = pyReplace m "models/" "") ∧
    (∀ models, validModels models = [] →
      resolve_model_name (some models) = "gemini-1.5-flash") ∧
    resolve_model_name none = "gemini-1.5-flash" := by
  refine ⟨by decide, by decide, ?_, ?_, ?_, ?_, rfl⟩
  · intro models m h1
    simp [resolve_model_name, h1]
  · intro models m h1 h2
    simp [resolve_model_name, h1, h2]
  · intro models m l h1 h2 h3
    rw [h3] at h1 h2
    simp [resolve_model_name, h3, h1, h2]
  · intro models h
    simp [resolve_model_name, h]

/-- Witness for C5: a priority-2 selection on a one-model catalog. -/
theorem resolve_model_name_priority_witness :
    resolve_model_name (some [⟨"models/x-flash", ["generateContent"]⟩]) =
      pyReplace "models/x-flash" "models/" "" := by
  exact resolve_model_name_priority.2.2.2.1
    [⟨"models/x-flash", ["generateContent"]⟩] "models/x-flash" (by decide) (by decide)

/-- C7: a first-attempt success is terminal — `ask_orbit` returns that
response, the session state (in particular `key_index`) is unchanged, and
exactly one backend call was made. -/
theorem ask_orbit_first_success (keys : List String) (gen : Nat → Except String String)
    (s : SessionState) (r : String) (h : gen 0 = Except.ok r) :
    ask_orbit keys gen s = (some r, s, [s.key_index]) := by
  simp [ask_orbit, askOrbitLoop, h]

/-- Witness for C7 on a two-key pool with an always-succeeding backend. -/
theorem ask_orbit_first_success_witness :
    ask_orbit ["k1", "k2"] (fun _ => Except.ok "hi") st0 = (some "hi", st0, [st0.key_index]) :=
  ask_orbit_first_success ["k1", "k2"] (fun _ => Except.ok "hi") st0 "hi" rfl

/-- C4: with a single-credential pool, a first attempt failing with a quota-
or auth-class error makes rotation fail, and `ask_orbit` terminates at once
with `none`: one backend call (though the budget is 2) and the session state
— in particular the cursor — unchanged. -/
theorem ask_orbit_single_key_exhausts (keys : List String)
    (gen : Nat → Except String String) (s : SessionState) (msg : String)
    (h1 : keys.length = 1) (hm : gen 0 = Except.error msg)
    (hclass : (is_quota msg || is_auth msg) = true) :
    ask_orbit keys gen s = (none, s, [s.key_index]) := by
  have h2 : keys.length ≤ 1 := by omega
  simp [ask_orbit, askOrbitLoop, hm, hclass, rotate_key, h2]

/-- Witness for C4: single key, quota error. -/
theorem ask_orbit_single_key_exhausts_witness :
    ask_orbit ["k1"] (fun _ => Except.error "429") st0 = (none, st0, [st0.key_index]) :=
  ask_orbit_single_key_exhausts ["k1"] (fun _ => Except.error "429") st0 "429"
    rfl rfl (by decide)

/-- Any `some` result of the retry loop is a value some backend call returned
with success; otherwise the loop result is `none`. -/
lemma askOrbitLoop_result_from_gen (keys : List String)
    (gen : Nat → Except String String) (M : Nat) :
    ∀ r attempt s, (askOrbitLoop keys gen M r attempt s).1 = none ∨
      ∃ resp a, (askOrbitLoop keys gen M r attempt s).1 = some resp ∧
        gen a = Except.ok resp := by
  intro r
  induction r with
  | zero => intro attempt s; left; rfl
  | succ r ih =>
    intro attempt s
    cases hg : gen attempt with
    | ok resp =>
      right
      exact ⟨resp, attempt, by simp [askOrbitLoop, hg], hg⟩
    | error msg =>
      by_cases hc : (is_quota msg || is_auth msg) = true
      · rcases hr : rotate_key keys s with ⟨b, s1⟩
        cases b with
        | false => left; simp [askOrbitLoop, hg, hc, hr]
        | true =>
          rcases ih (attempt + 1) s1 with hnone | ⟨resp, a, hsome, hok⟩
          · left; simp [askOrbitLoop, hg, hc, hr, hnone]
          · right; exact ⟨resp, a, by simp [askOrbitLoop, hg, hc, hr, hsome], hok⟩
      · by_cases ha : attempt < M - 1
        · rcases ih (attempt + 1) s with hnone | ⟨resp, a, hsome, hok⟩
          · left; simp [askOrbitLoop, hg, hc, ha, hnone]
          · right; exact ⟨resp, a, by simp [askOrbitLoop, hg, hc, ha, hsome], hok⟩
        · left; simp [askOrbitLoop, hg, hc, ha]

/-- C3: for every pool, backend behaviour and session state, `ask_orbit`
returns either a genuine backend response or `none`; no error object ever
surfaces and no exception propagates (absence is the sole failure signal). -/
theorem ask_orbit_absence_or_backend_success (keys : List String)
    (gen : Nat → Except String String) (s : SessionState) :
    (ask_orbit keys gen s).1 = none ∨
      ∃ resp a, (ask_orbit keys gen s).1 = some resp ∧ gen a = Except.ok resp :=
  askOrbitLoop_result_from_gen keys gen (keys.length + 1) (keys.length + 1) 0 s

/-- With at least two credentials, a successful rotation produces the state
with the advanced cursor and the handle rebuilt on the new credential. -/
lemma rotate_key_of_two_le (keys : List String) (s : SessionState)
    (h2 : 2 ≤ keys.length) :
    rotate_key keys s =
      (true,
        { key_index := (s.key_index + 1) % keys.length
          model_name := s.model_name
          model := { api_key := configure_genai keys ((s.key_index + 1) % keys.length)
                     name := s.model_name } }) := by
  have hn : ¬ keys.length ≤ 1 := by omega
  simp [rotate_key, hn]

/-- If every backend call raises a quota-class error and the pool has at
least two credentials, the retry loop consumes its whole budget `r`, returns
`none`, and the cursors of the `r` backend calls are
`start, start+1, ..., start+r-1` modulo the pool size. -/
lemma askOrbitLoop_all_quota (keys : List String) (gen : Nat → Except String String)
    (M : Nat) (h2 : 2 ≤ keys.length)
    (hq : ∀ a, ∃ msg, gen a = Except.error msg ∧ is_quota msg = true) :
    ∀ r attempt s, s.key_index < keys.length →
      (askOrbitLoop keys gen M r attempt s).1 = none ∧
      (askOrbitLoop keys gen M r attempt s).2.2 =
        (List.range r).map (fun i => (s.key_index + i) % keys.length) := by
  intro r
  induction r with
  | zero => intro attempt s hs; exact ⟨rfl, rfl⟩
  | succ r ih =>
    intro attempt s hs
    obtain ⟨msg, hg, hqt⟩ := hq attempt
    have hpos : 0 < keys.length := by omega
    have hlt : (s.key_index + 1) % keys.length < keys.length := Nat.mod_lt _ hpos
    obtain ⟨ihn, iht⟩ := ih (attempt + 1)
      { key_index := (s.key_index + 1) % keys.length
        model_name := s.model_name
        model := { api_key := configure_genai keys ((s.key_index + 1) % keys.length)
                   name := s.model_name } } hlt
    have hshift : ∀ i : Nat,
        ((s.key_index + 1) % keys.length + i) % keys.length =
          (s.key_index + (i + 1)) % keys.length := by
      intro i
      rw [Nat.mod_add_mod]
      congr 1
      omega
    constructor
    · simpa [askOrbitLoop, hg, hqt, rotate_key_of_two_le keys s h2] using ihn
    · have step :
          (askOrbitLoop keys gen M (r + 1) attempt s).2.2 =
            s.key_index :: (List.range r).map
              (fun i => ((s.key_index + 1) % keys.length + i) % keys.length) := by
        simpa [askOrbitLoop, hg, hqt, rotate_key_of_two_le keys s h2] using iht
      rw [step, List.range_succ_eq_map, List.map_cons, List.map_map]
      have hfun : (fun i => ((s.key_index + 1) % keys.length + i) % keys.length) =
          ((fun i => (s.key_index + i) % keys.length) ∘ Nat.succ) := by
        funext i
        simp [Function.comp, hshift i]
      rw [hfun]
      congr 1
      simp [Nat.mod_eq_of_lt hs]

/-- C1: with a pool of N >= 2 credentials, an in-range session cursor (the
session starts at 0 and rotation always reduces modulo N), and every backend
call failing with a quota-class error, `ask_orbit` makes exactly N + 1
backend calls (the budget `poolSize + 1`), rotating the cursor on each
failure so that every one of the N credential indices is tried, and returns
`none`. -/
theorem ask_orbit_quota_exhaustion (keys : List String)
    (gen : Nat → Except String String) (s : SessionState)
    (h2 : 2 ≤ keys.length) (hs : s.key_index < keys.length)
    (hq : ∀ a, ∃ msg, gen a = Except.error msg ∧ is_quota msg = true) :
    (ask_orbit keys gen s).1 = none ∧
    (ask_orbit keys gen s).2.2 =
      (List.range (keys.length + 1)).map (fun i => (s.key_index + i) % keys.length) ∧
    (ask_orbit keys gen s).2.2.length = keys.length + 1 ∧
    (∀ j, j < keys.length → j ∈ (ask_orbit keys gen s).2.2) := by
  obtain ⟨h1, htr⟩ := askOrbitLoop_all_quota keys gen (keys.length + 1) h2 hq
    (keys.length + 1) 0 s hs
  have htr' : (ask_orbit keys gen s).2.2 =
      (List.range (keys.length + 1)).map (fun i => (s.key_index + i) % keys.length) := htr
  refine ⟨h1, htr', ?_, ?_⟩
  · rw [htr']
    simp
  · intro j hj
    rw [htr']
    have hpos : 0 < keys.length := by omega
    have hbound := Nat.mod_lt (j + keys.length - s.key_index) hpos
    refine List.mem_map.2 ⟨(j + keys.length - s.key_index) % keys.length,
      List.mem_range.2 (by omega), ?_⟩
    rw [Nat.add_mod_mod]
    have harg : s.key_index + (j + keys.length - s.key_index) = j + keys.length := by omega
    rw [harg, Nat.add_mod_right]
    exact Nat.mod_eq_of_lt hj

/-- Witness for C1: two keys, permanent quota failure, fresh session. -/
theorem ask_orbit_quota_exhaustion_witness :
    (ask_orbit ["k1", "k2"] (fun _ => Except.error "429") st0).1 = none :=
  (ask_orbit_quota_exhaustion ["k1", "k2"] (fun _ => Except.error "429") st0
    (by decide) (by decide) (fun _ => ⟨"429", rfl, by decide⟩)).1

/-- One unfolding of the retry loop on a transient failure with attempts
left: the loop retries in place on the same state. -/
lemma askOrbitLoop_transient_step (keys : List String)
    (gen : Nat → Except String String) (M : Nat) (msg : String)
    (r attempt : Nat) (s : SessionState)
    (hclass : (is_quota msg || is_auth msg) = false)
    (hmsg : gen attempt = Except.error msg)
    (ha : attempt < M - 1) :
    askOrbitLoop keys gen M (r + 1) attempt s =
      ((askOrbitLoop keys gen M r (attempt + 1) s).1,
       (askOrbitLoop keys gen M r (attempt + 1) s).2.1,
       s.key_index :: (askOrbitLoop keys gen M r (attempt + 1) s).2.2) := by
  conv_lhs => rw [askOrbitLoop]
  rw [hmsg]
  simp [hclass, ha]

/-- A permanently transient-failing backend makes the retry loop keep the
state unchanged, return `none`, and call the backend once per remaining
iteration (the cursor never moves), provided the attempt counter and the
remaining budget add up to the loop bound as at the call site. -/
lemma askOrbitLoop_transient_exhaust (keys : List String)
    (gen : Nat → Except String String) (M : Nat) (msg : String)
    (hclass : (is_quota msg || is_auth msg) = false)
    (hgen : ∀ a, gen a = Except.error msg) :
    ∀ r attempt s, attempt + r + 1 = M →
      askOrbitLoop keys gen M (r + 1) attempt s =
        (none, s, List.replicate (r + 1) s.key_index) := by
  intro r
  induction r with
  | zero =>
    intro attempt s hM
    have ha : ¬ attempt < M - 1 := by omega
    simp [askOrbitLoop, hgen attempt, hclass, ha]
  | succ r ih =>
    intro attempt s hM
    have ha : attempt < M - 1 := by omega
    have hrec := ih (attempt + 1) s (by omega)
    rw [askOrbitLoop_transient_step keys gen M msg (r + 1) attempt s hclass
      (hgen attempt) ha, hrec]
    simp [List.replicate_succ]

/-- C6: with a non-empty pool, a transient (neither quota- nor auth-class)
failure on the first attempt followed by a success on the second returns the
second attempt's response with the session state (hence the cursor)
unchanged and no rotation; and if every attempt fails with that transient
error, `ask_orbit` retries in place through the whole budget of
`poolSize + 1` attempts (the cursor never moving) and returns `none`. -/
theorem ask_orbit_transient_retry (keys : List String)
    (gen : Nat → Except String String) (s : SessionState) (msg r : String)
    (hk : keys ≠ [])
    (hclass : (is_quota msg || is_auth msg) = false) :
    (gen 0 = Except.error msg → gen 1 = Except.ok r →
      ask_orbit keys gen s = (some r, s, [s.key_index, s.key_index])) ∧
    ((∀ a, gen a = Except.error msg) →
      ask_orbit keys gen s = (none, s, List.replicate (keys.length + 1) s.key_index)) := by
  have hpos : 0 < keys.length := List.length_pos.2 hk
  constructor
  · intro h0 h1
    obtain ⟨n, hn⟩ : ∃ n, keys.length = n + 1 := ⟨keys.length - 1, by omega⟩
    have ha : 0 < keys.length + 1 - 1 := by omega
    simp only [ask_orbit, hn]
    simp [askOrbitLoop, h0, h1, hclass]
  · intro hgen
    have := askOrbitLoop_transient_exhaust keys gen (keys.length + 1) msg hclass hgen
      keys.length 0 s (by omega)
    simpa [ask_orbit] using this

/-- Witness for C6: one key, transient failure then success. -/
theorem ask_orbit_transient_retry_witness :
    ask_orbit ["k1"] (fun a => if a == 0 then Except.error "500" else Except.ok "resp") st0 =
      (some "resp", st0, [st0.key_index, st0.key_index]) :=
  (ask_orbit_transient_retry ["k1"]
    (fun a => if a == 0 then Except.error "500" else Except.ok "resp") st0 "500" "resp"
    (by decide) (by decide)).1 rfl rfl

/-- With at least two credentials, `k` rotations from an in-range cursor land
on `(start + k) mod poolSize`. -/
lemma rotateTimes_key_index (keys : List String) (h2 : 2 ≤ keys.length) :
    ∀ k s, s.key_index < keys.length →
      (rotateTimes keys k s).key_index = (s.key_index + k) % keys.length := by
  intro k
  induction k with
  | zero =>
    intro s hs
    simp [rotateTimes, Nat.mod_eq_of_lt hs]
  | succ k ih =>
    intro s hs
    have hpos : 0 < keys.length := by omega
    have hrot : (rotate_key keys s).2.key_index = (s.key_index + 1) % keys.length := by
      rw [rotate_key_of_two_le keys s h2]
    rw [rotateTimes, ih ((rotate_key keys s).2) (by rw [hrot]; exact Nat.mod_lt _ hpos),
      hrot, Nat.mod_add_mod]
    congr 1
    omega

/-- Counterexample to C8 as stated: for pool size 2, starting from the
out-of-range cursor value 2, two rotations land on cursor 0, not back on 2
(rotation reduces the cursor modulo the pool size, so it returns to the
start only for in-range starting cursors). -/
theorem rotate_key_cycle_cex :
    (rotateTimes ["a", "b"] 2
      { key_index := 2, model_name := "m",
        model := { api_key := none, name := "m" } }).key_index ≠ 2 := by
  decide

/-- C8 (amended): for every pool size N >= 2 and every in-range starting
cursor (the only values the session ever holds, since the cursor starts at 0
and is only ever set modulo N), N rotations return the cursor to its
starting value, and the cursor values reached after 0, 1, ..., N-1 rotations
are pairwise distinct. -/
theorem rotate_key_cycle (keys : List String) (s : SessionState)
    (h2 : 2 ≤ keys.length) (hs : s.key_index < keys.length) :
    (rotateTimes keys keys.length s).key_index = s.key_index ∧
    (∀ i j, i < j → j < keys.length →
      (rotateTimes keys i s).key_index ≠ (rotateTimes keys j s).key_index) := by
  have hpos : 0 < keys.length := by omega
  constructor
  · rw [rotateTimes_key_index keys h2 keys.length s hs, Nat.add_mod_right]
    exact Nat.mod_eq_of_lt hs
  · intro i j hij hj hEq
    rw [rotateTimes_key_index keys h2 i s hs, rotateTimes_key_index keys h2 j s hs] at hEq
    have hmod : Nat.ModEq keys.length (s.key_index + i) (s.key_index + j) := hEq
    have hij2 : Nat.ModEq keys.length i j := Nat.ModEq.add_left_cancel' s.key_index hmod
    have : i % keys.length = j % keys.length := hij2
    rw [Nat.mod_eq_of_lt (by omega), Nat.mod_eq_of_lt hj] at this
    omega

/-- Witness for the amended C8: three keys, fresh session, three rotations. -/
theorem rotate_key_cycle_witness :
    (rotateTimes ["a", "b", "c"] (["a", "b", "c"] : List String).length st0).key_index =
      st0.key_index :=
  (rotate_key_cycle ["a", "b", "c"] st0 (by decide) (by decide)).1
